import Mathlib

/-!
Verification of `codex-notify` (`src/notify.py`): a shallow embedding in
Lean 4 of the notification script, together with theorems settling the
frozen claims about it.

Modelling conventions:
* Python strings are Lean `String`s (sequences of Unicode codepoints);
  `len`, slicing and indexing are by codepoint, matching CPython.
* JSON values are the inductive `Json`; numbers are modelled as integers
  (every number appearing in the claims and tests is an integer).
* Python-level dynamic errors (AttributeError and friends) are modelled
  explicitly with `Except PyErr`, so "an exception propagates" is visible
  as an `Except.error` result.
* The external notifier processes are modelled by an environment value
  describing their outcomes; the calls the script makes are recorded in
  an `Effects` record.
-/

namespace CodexNotify

/-- The left curly-brace character (codepoint 123). -/
def lbraceChar : Char := Char.ofNat 123

/-- The right curly-brace character (codepoint 125). -/
def rbraceChar : Char := Char.ofNat 125

/-- The literal appended by `_short_text` (line 62 of the source). The
source file's bytes there are `c3 a2 e2 82 ac c2 a6`, which Python
(UTF-8 source) reads as the THREE codepoints U+00E2, U+20AC, U+00A6 — a
mojibake corruption of the single intended ellipsis U+2026, whose UTF-8
bytes were re-decoded as a single-byte code page. -/
def sourceEllipsis : List Char := [Char.ofNat 0xe2, Char.ofNat 0x20ac, Char.ofNat 0xa6]

/-- Python's whitespace class, as used by `str.split()`, `str.strip()`
and friends: ASCII whitespace, the C1 control whitespace characters and
the Unicode space separators. -/
def isPyWs (c : Char) : Bool :=
  c == ' ' || c == '\t' || c == '\n' || c == '\r' ||
  c.toNat == 0x0b || c.toNat == 0x0c ||
  (0x1c ≤ c.toNat && c.toNat ≤ 0x1f) ||
  c.toNat == 0x85 || c.toNat == 0xa0 || c.toNat == 0x1680 ||
  (0x2000 ≤ c.toNat && c.toNat ≤ 0x200a) ||
  c.toNat == 0x2028 || c.toNat == 0x2029 ||
  c.toNat == 0x202f || c.toNat == 0x205f || c.toNat == 0x3000

/-- Helper for `str.split()` with no separator: accumulates the current
word (reversed) and splits on runs of whitespace, discarding empties. -/
def pySplitWsAux : List Char → List Char → List (List Char)
  | [], cur => if cur.isEmpty then [] else [cur.reverse]
  | c :: rest, cur =>
    if isPyWs c then
      if cur.isEmpty then pySplitWsAux rest []
      else cur.reverse :: pySplitWsAux rest []
    else pySplitWsAux rest (c :: cur)

/-- Python `value.split()`: the maximal whitespace-free words of the
string, in order. -/
def pySplitWs (l : List Char) : List (List Char) := pySplitWsAux l []

/-- Python `l.rstrip()` on a codepoint list. -/
def pyRstrip (l : List Char) : List Char := (l.reverse.dropWhile isPyWs).reverse

/-- Python `l.lstrip()` on a codepoint list. -/
def pyLstrip (l : List Char) : List Char := l.dropWhile isPyWs

/-- Python `s.strip()`. -/
def pyStrip (s : String) : String := String.mk (pyRstrip (pyLstrip s.data))

/-- Python `" ".join(value.split())`: collapse every whitespace run to a
single space and drop leading/trailing whitespace. -/
def collapseWs (s : String) : String :=
  String.mk (List.intercalate [' '] (pySplitWs s.data))

/-- Python slice `l[:stop]` where `stop` may be negative (counting from
the end, clamped at zero). -/
def pyTake (l : List Char) (stop : Int) : List Char :=
  if 0 ≤ stop then l.take stop.toNat
  else l.take (l.length - (-stop).toNat)

/-- `_short_text(value, max_chars)` from `src/notify.py`: collapse
whitespace, and when the collapsed text is longer than `max_chars`,
keep the first `max_chars - 1` codepoints, strip trailing whitespace
and append the source's three-codepoint ellipsis literal. -/
def shortText (value : String) (maxChars : Nat) : String :=
  let snippet := collapseWs value
  if snippet.length > maxChars then
    String.mk (pyRstrip (pyTake snippet.data ((maxChars : Int) - 1)) ++ sourceEllipsis)
  else snippet

/-- The word list produced by `pySplitWsAux` from a whitespace-free
accumulator: every word is non-empty and whitespace-free. -/
def wordsClean (ws : List (List Char)) : Prop :=
  ∀ w ∈ ws, w ≠ [] ∧ ∀ c ∈ w, isPyWs c = false

/-! ## JSON values -/

/-- A JSON value as produced by `json.loads`, with numbers restricted to
integers (every number in the claims is an integer; fractional numbers
are outside the model). -/
inductive Json where
  | null
  | bool (b : Bool)
  | num (n : Int)
  | str (s : String)
  | arr (xs : List Json)
  | obj (kvs : List (String × Json))

/-- `d.get(k)` on a dict built by `json.loads`: with duplicate keys the
last binding wins, hence the lookup over the reversed association list. -/
def objGet (kvs : List (String × Json)) (k : String) : Option Json :=
  (kvs.reverse.find? (fun p => p.1 == k)).map Prod.snd

/-- Python truthiness of a JSON value (`bool(v)`). -/
def pyTruthy : Json → Bool
  | Json.null => false
  | Json.bool b => b
  | Json.num n => n != 0
  | Json.str s => !s.data.isEmpty
  | Json.arr xs => !xs.isEmpty
  | Json.obj kvs => !kvs.isEmpty

mutual
/-- Python `repr` of a JSON value (as it appears inside containers when
`str` is taken; string escaping inside `repr` is not modelled, no claim
exercises it). -/
def pyRepr : Json → String
  | Json.null => "None"
  | Json.bool true => "True"
  | Json.bool false => "False"
  | Json.num n => toString n
  | Json.str s => "'" ++ s ++ "'"
  | Json.arr xs => "[" ++ pyReprArr xs ++ "]"
  | Json.obj kvs => "\x7b" ++ pyReprObj kvs ++ "\x7d"

/-- Comma-joined `repr`s of list elements. -/
def pyReprArr : List Json → String
  | [] => ""
  | [x] => pyRepr x
  | x :: y :: xs => pyRepr x ++ ", " ++ pyReprArr (y :: xs)

/-- Comma-joined `repr`s of dict entries. -/
def pyReprObj : List (String × Json) → String
  | [] => ""
  | [(k, v)] => "'" ++ k ++ "': " ++ pyRepr v
  | (k, v) :: e :: kvs => "'" ++ k ++ "': " ++ pyRepr v ++ ", " ++ pyReprObj (e :: kvs)
end

/-- Python `str()` of a JSON value, as used by f-string interpolation. -/
def pyStr : Json → String
  | Json.str s => s
  | Json.null => "None"
  | Json.bool true => "True"
  | Json.bool false => "False"
  | Json.num n => toString n
  | v => pyRepr v

/-- Does the string look like JSON to the script: after `lstrip()`, does
it start with a curly brace or a bracket? -/
def startsJson (s : String) : Bool :=
  match pyLstrip s.data with
  | c :: _ => c == lbraceChar || c == '['
  | [] => false

/-! ## A model of `json.loads`

A fuel-indexed recursive-descent parser for the JSON grammar accepted by
`json.loads` (restricted to integer numbers: a fractional part or an
exponent makes the parse fail in the model). Parse failure is `none`,
matching the `json.JSONDecodeError` paths of the script. -/

/-- JSON structural whitespace. -/
def isJsonWs (c : Char) : Bool := c == ' ' || c == '\t' || c == '\n' || c == '\r'

/-- Skip JSON structural whitespace. -/
def skipWsJ (l : List Char) : List Char := l.dropWhile isJsonWs

/-- Is `c` a hexadecimal digit? -/
def isHexDigit (c : Char) : Bool :=
  c.isDigit || ('a' ≤ c && c ≤ 'f') || ('A' ≤ c && c ≤ 'F')

/-- Value of a hexadecimal digit. -/
def hexVal (c : Char) : Nat :=
  if c.isDigit then c.toNat - '0'.toNat
  else if 'a' ≤ c && c ≤ 'f' then c.toNat - 'a'.toNat + 10
  else c.toNat - 'A'.toNat + 10

/-- Parse the body of a JSON string literal (after the opening quote),
accumulating codepoints in reverse. -/
def parseStrAux : List Char → List Char → Option (String × List Char)
  | [], _ => none
  | c :: rest, acc =>
    if c == '"' then some (String.mk acc.reverse, rest)
    else if c == '\\' then
      match rest with
      | [] => none
      | e :: rest2 =>
        if e == '"' then parseStrAux rest2 ('"' :: acc)
        else if e == '\\' then parseStrAux rest2 ('\\' :: acc)
        else if e == '/' then parseStrAux rest2 ('/' :: acc)
        else if e == 'b' then parseStrAux rest2 (Char.ofNat 8 :: acc)
        else if e == 'f' then parseStrAux rest2 (Char.ofNat 12 :: acc)
        else if e == 'n' then parseStrAux rest2 ('\n' :: acc)
        else if e == 'r' then parseStrAux rest2 ('\r' :: acc)
        else if e == 't' then parseStrAux rest2 ('\t' :: acc)
        else if e == 'u' then
          match rest2 with
          | h1 :: h2 :: h3 :: h4 :: rest3 =>
            if isHexDigit h1 && isHexDigit h2 && isHexDigit h3 && isHexDigit h4 then
              let v := ((hexVal h1 * 16 + hexVal h2) * 16 + hexVal h3) * 16 + hexVal h4
              parseStrAux rest3 (Char.ofNat v :: acc)
            else none
          | _ => none
        else none
    else if c.toNat < 32 then none
    else parseStrAux rest (c :: acc)

/-- Parse a JSON integer: optional minus sign, then digits, rejected if
followed by a fractional part or an exponent (floats are outside the
model). -/
def parseNum (l : List Char) : Option (Json × List Char) :=
  let (neg, l1) := match l with
    | '-' :: r => (true, r)
    | _ => (false, l)
  let digits := l1.takeWhile Char.isDigit
  let rest := l1.dropWhile Char.isDigit
  if digits.isEmpty then none
  else
    match rest with
    | '.' :: _ => none
    | 'e' :: _ => none
    | 'E' :: _ => none
    | _ =>
      let v : Nat := digits.foldl (fun a c => a * 10 + (c.toNat - '0'.toNat)) 0
      some (Json.num (if neg then -(v : Int) else (v : Int)), rest)

mutual
/-- Parse one JSON value, fuel-indexed. -/
def parseVal : Nat → List Char → Option (Json × List Char)
  | 0, _ => none
  | fuel + 1, l =>
    match skipWsJ l with
    | [] => none
    | c :: rest =>
      if c == lbraceChar then
        match skipWsJ rest with
        | d :: rest2 =>
          if d == rbraceChar then some (Json.obj [], rest2)
          else (parseMembers fuel (d :: rest2)).map (fun p => (Json.obj p.1, p.2))
        | [] => none
      else if c == '[' then
        match skipWsJ rest with
        | d :: rest2 =>
          if d == ']' then some (Json.arr [], rest2)
          else (parseElems fuel (d :: rest2)).map (fun p => (Json.arr p.1, p.2))
        | [] => none
      else if c == '"' then
        (parseStrAux rest []).map (fun p => (Json.str p.1, p.2))
      else if c == 't' then
        match rest with
        | 'r' :: 'u' :: 'e' :: rest2 => some (Json.bool true, rest2)
        | _ => none
      else if c == 'f' then
        match rest with
        | 'a' :: 'l' :: 's' :: 'e' :: rest2 => some (Json.bool false, rest2)
        | _ => none
      else if c == 'n' then
        match rest with
        | 'u' :: 'l' :: 'l' :: rest2 => some (Json.null, rest2)
        | _ => none
      else if c == '-' || c.isDigit then parseNum (c :: rest)
      else none

/-- Parse the elements of a non-empty JSON array, up to and including the
closing bracket. -/
def parseElems : Nat → List Char → Option (List Json × List Char)
  | 0, _ => none
  | fuel + 1, l =>
    match parseVal fuel l with
    | none => none
    | some (v, rest) =>
      match skipWsJ rest with
      | ',' :: rest2 =>
        (parseElems fuel rest2).map (fun p => (v :: p.1, p.2))
      | ']' :: rest2 => some ([v], rest2)
      | _ => none

/-- Parse the members of a non-empty JSON object, up to and including the
closing brace. -/
def parseMembers : Nat → List Char → Option (List (String × Json) × List Char)
  | 0, _ => none
  | fuel + 1, l =>
    match skipWsJ l with
    | '"' :: rest =>
      match parseStrAux rest [] with
      | none => none
      | some (k, rest2) =>
        match skipWsJ rest2 with
        | ':' :: rest3 =>
          match parseVal fuel rest3 with
          | none => none
          | some (v, rest4) =>
            match skipWsJ rest4 with
            | ',' :: rest5 =>
              (parseMembers fuel rest5).map (fun p => ((k, v) :: p.1, p.2))
            | d :: rest5 =>
              if d == rbraceChar then some ([(k, v)], rest5) else none
            | [] => none
        | _ => none
    | _ => none
end

/-- `json.loads`: parse a complete JSON document, requiring only
whitespace after the value. -/
def jsonLoads (s : String) : Option Json :=
  match parseVal (s.length + 2) s.data with
  | some (v, rest) => if (skipWsJ rest).isEmpty then some v else none
  | none => none

/-! ## `_summarize_structured` -/

/-- `str(f.get("title") or "").strip()` for a finding dict `f`. -/
def findingTitle (kvs : List (String × Json)) : String :=
  pyStrip (pyStr (match objGet kvs "title" with
    | some v => if pyTruthy v then v else Json.str ""
    | none => Json.str ""))

/-- One iteration of the findings loop: the piece contributed by one
finding, or `none` when the finding is skipped (not a dict, or the piece
is empty). -/
def pieceOf : Json → Option String
  | Json.obj kvs =>
    let title := findingTitle kvs
    match objGet kvs "priority" with
    | some Json.null =>
      if title.isEmpty then none else some title
    | some v =>
      let label := "[P" ++ pyStr v ++ "]"
      some (if title.isEmpty then label else label ++ " " ++ title)
    | none =>
      if title.isEmpty then none else some title
  | _ => none

/-- The listed pieces: the first three findings, each contributing its
piece when it has one. -/
def findingParts (fs : List Json) : List String :=
  (fs.take 3).filterMap pieceOf

/-- The fallback sentence returned when a JSON-looking string fails to
parse. -/
def fallbackSentence : String := "Task complete. See Codex for full details."

/-- The generic sentence for structured data without a findings list. -/
def genericSentence : String := "Task complete. See Codex for structured output."

/-- `_summarize_structured(msg)` from `src/notify.py` on a Python value
(strings are `Json.str`, parsed values the other constructors). -/
def summarizeStructured (msg : Json) : String :=
  let dataQ : Option Json :=
    match msg with
    | Json.str s => if startsJson s then jsonLoads s else some msg
    | _ => some msg
  match dataQ with
  | none => fallbackSentence
  | some data =>
    match data with
    | Json.obj kvs =>
      match objGet kvs "findings" with
      | some (Json.arr fs) =>
        if fs.isEmpty then "Review complete with no findings."
        else
          let parts := findingParts fs
          let base := "Review complete with " ++ toString fs.length ++ " finding" ++
            (if fs.length != 1 then "s" else "")
          if parts.isEmpty then base
          else base ++ ": " ++ String.intercalate "; " parts
      | _ => genericSentence
    | _ => genericSentence

/-- Is the JSON value a dict? -/
def isDictJson : Json → Bool
  | Json.obj _ => true
  | _ => false

/-! ## `main` and the notification sender

Python-level dynamic errors are surfaced as `Except.error`: an
`Except.error` result of the model is an uncaught exception of the
script. The subprocess calls are external; their outcomes are supplied
by an `ExtEnv` value and the calls made are recorded in `Effects`. -/

/-- An uncaught Python exception. -/
inductive PyErr where
  | attributeError
  | typeError
  | keyError
  | indexError
deriving DecidableEq

/-- Outcome of the `terminal-notifier` subprocess invocation. -/
inductive PrimaryOutcome where
  | ok
  | notFound (emsg : String)
  | nonzero (code : Int) (stderrText : String) (stdoutText : String)

/-- The external world: whether debug logging is enabled (the
environment variable), what the primary notifier does, and whether the
AppleScript fallback raises (with the exception text). -/
structure ExtEnv where
  debug : Bool
  primary : PrimaryOutcome
  fallbackError : Option String

/-- Observable effects of a run: stdout lines, debug-log lines, the
`terminal-notifier` invocations (title, message, group) and the
`osascript` fallback invocations (title, message). -/
structure Effects where
  stdout : List String
  logs : List String
  notifierCalls : List (String × String × String)
  osaCalls : List (String × String)
deriving DecidableEq

/-- `_log(msg)`: a stderr line only when debug logging is enabled. -/
def logIf (debug : Bool) (msg : String) : List String :=
  if debug then [msg] else []

/-- Python `a or b or ""` over strings (first truthy, else empty). -/
def firstTruthyStr (a b : String) : String :=
  if !a.isEmpty then a else if !b.isEmpty then b else ""

/-- `_send_notification(title, message, group)`: try `terminal-notifier`;
on failure log and fall back to `osascript`, swallowing its failure. -/
def sendNotification (env : ExtEnv) (title message group : String) : Effects :=
  match env.primary with
  | PrimaryOutcome.ok => ⟨[], [], [(title, message, group)], []⟩
  | PrimaryOutcome.notFound emsg =>
    let err := "terminal-notifier not found: " ++ emsg
    let l1 := logIf env.debug ("failed to send notification via terminal-notifier: " ++ err)
    let l2 := match env.fallbackError with
      | some fe => logIf env.debug ("fallback AppleScript notification failed: " ++ fe)
      | none => []
    ⟨[], l1 ++ l2, [(title, message, group)], [(title, message)]⟩
  | PrimaryOutcome.nonzero code errText outText =>
    let detail := pyStrip (firstTruthyStr errText outText)
    let err := "terminal-notifier exited " ++ toString code ++ ": " ++ detail
    let l1 := logIf env.debug ("failed to send notification via terminal-notifier: " ++ err)
    let l2 := match env.fallbackError with
      | some fe => logIf env.debug ("fallback AppleScript notification failed: " ++ fe)
      | none => []
    ⟨[], l1 ++ l2, [(title, message, group)], [(title, message)]⟩

/-- Python `v[0]`: first element of a sequence, or the dynamic error the
subscript raises on that value. -/
def pyIndex0 : Json → Except PyErr Json
  | Json.arr (x :: _) => Except.ok x
  | Json.arr [] => Except.error PyErr.indexError
  | Json.str s =>
    match s.data with
    | c :: _ => Except.ok (Json.str (String.mk [c]))
    | [] => Except.error PyErr.indexError
  | Json.obj _ => Except.error PyErr.keyError
  | _ => Except.error PyErr.typeError

/-- `notification.get("input-messages", [])`. -/
def inputMessagesOf (kvs : List (String × Json)) : Json :=
  (objGet kvs "input-messages").getD (Json.arr [])

/-- `input_messages[0] if input_messages else ""`. -/
def firstInputE (kvs : List (String × Json)) : Except PyErr Json :=
  let im := inputMessagesOf kvs
  if pyTruthy im then pyIndex0 im else Except.ok (Json.str "")

/-- The title of the notification; `_short_text` requires a string, any
truthy non-string first input raises AttributeError at `.split()`. -/
def titleE (kvs : List (String × Json)) : Except PyErr String :=
  (firstInputE kvs).bind fun fi =>
    if pyTruthy fi then
      match fi with
      | Json.str s => Except.ok ("Codex: " ++ shortText s 100)
      | _ => Except.error PyErr.attributeError
    else Except.ok "Codex"

/-- `notification.get("last-assistant-message") or ""`. -/
def assistantValue (kvs : List (String × Json)) : Json :=
  match objGet kvs "last-assistant-message" with
  | some v => if pyTruthy v then v else Json.str ""
  | none => Json.str ""

/-- `isinstance(m, (dict, list)) or (isinstance(m, str) and m.lstrip().startswith(...))`. -/
def looksLikeJson : Json → Bool
  | Json.obj _ => true
  | Json.arr _ => true
  | Json.str s => startsJson s
  | _ => false

/-- The message before post-processing: summarize JSON-looking values,
stringify the rest, truncated to 300 codepoints either way. -/
def rawMessage (kvs : List (String × Json)) : String :=
  let am := assistantValue kvs
  if looksLikeJson am then shortText (summarizeStructured am) 300
  else shortText (pyStr am) 300

/-- One character of the brace replacement. -/
def braceSwap (c : Char) : Char :=
  if c == lbraceChar then '(' else if c == rbraceChar then ')' else c

/-- Sequential `message.replace` of each curly brace by the matching
parenthesis (character-wise, since the replaced strings are single
characters and the replacements introduce no braces). -/
def replaceBraces (m : String) : String :=
  String.mk (m.data.map braceSwap)

/-- Space-prefix a message that starts with a dash. -/
def dashGuard (m : String) : String :=
  match m.data with
  | c :: _ => if c == '-' then " " ++ m else m
  | [] => m

/-- The post-processing applied to the outgoing message: dash guard,
then brace replacement. -/
def postProcess (m : String) : String := replaceBraces (dashGuard m)

/-- The message actually handed to the sender. -/
def sentMessage (kvs : List (String × Json)) : String := postProcess (rawMessage kvs)

/-- `str(notification.get("thread-id", ""))`. -/
def threadIdOf (kvs : List (String × Json)) : String :=
  pyStr ((objGet kvs "thread-id").getD (Json.str ""))

/-- The `agent-turn-complete` branch of the match in `main`, plus the
send that follows it. -/
def handleAgentTurn (kvs : List (String × Json)) (env : ExtEnv) :
    Except PyErr (Nat × Effects) :=
  (titleE kvs).bind fun title =>
    Except.ok (0, sendNotification env title (sentMessage kvs) ("codex-" ++ threadIdOf kvs))

/-- Does `notification.get("type")` match the `"agent-turn-complete"` case? -/
def isAgentTurn : Option Json → Bool
  | some (Json.str t) => t == "agent-turn-complete"
  | _ => false

/-- The value interpolated in the skip-log line (`None` when the field
is absent). -/
def typeLogStr (o : Option Json) : String := pyStr (o.getD Json.null)

/-- The body of `main` after JSON parsing: `.get` on a non-dict raises
AttributeError; a dict is dispatched on its `type` field. -/
def handleNotification (v : Json) (env : ExtEnv) : Except PyErr (Nat × Effects) :=
  match v with
  | Json.obj kvs =>
    if isAgentTurn (objGet kvs "type") then handleAgentTurn kvs env
    else
      Except.ok (0, ⟨[],
        logIf env.debug ("not sending a push notification for: " ++
          typeLogStr (objGet kvs "type")), [], []⟩)
  | _ => Except.error PyErr.attributeError

/-- `main()` on the full argv (program name included): usage message and
exit 1 unless exactly one argument is given; exit 1 silently when the
argument is not JSON; otherwise dispatch. -/
def mainFn (argv : List String) (env : ExtEnv) : Except PyErr (Nat × Effects) :=
  match argv with
  | [_, a] =>
    match jsonLoads a with
    | none => Except.ok (1, ⟨[], [], [], []⟩)
    | some v => handleNotification v env
  | _ => Except.ok (1, ⟨["Usage: notify.py <NOTIFICATION_JSON>"], [], [], []⟩)

/-- A concrete quiet environment for counterexamples and witnesses. -/
def env0 : ExtEnv := ⟨false, PrimaryOutcome.ok, none⟩

/-- The shapes of the `input-messages` value on which the title
computation does not raise: falsy values, strings, and lists whose first
element is a string or falsy. Every other shape raises a dynamic error
at the subscript or at `.split()`. -/
def safeMessagesVal : Json → Bool
  | Json.arr [] => true
  | Json.arr (Json.str _ :: _) => true
  | Json.arr (x :: _) => !pyTruthy x
  | Json.str _ => true
  | v => !pyTruthy v

/-- The safety condition on a parsed notification dict. -/
def safeInputMessages (kvs : List (String × Json)) : Bool :=
  safeMessagesVal (inputMessagesOf kvs)

theorem titleE_isOk (kvs : List (String × Json)) (h : safeInputMessages kvs = true) :
    ∃ t, titleE kvs = Except.ok t := by
  have h' : safeMessagesVal (inputMessagesOf kvs) = true := h
  unfold titleE firstInputE
  generalize hg : inputMessagesOf kvs = im at h' ⊢
  clear h hg
  cases im with
  | null => exact ⟨_, rfl⟩
  | bool b =>
    cases b with
    | false => exact ⟨_, rfl⟩
    | true => simp [safeMessagesVal, pyTruthy] at h'
  | num n =>
    have hn : n = 0 := by simpa [safeMessagesVal, pyTruthy] using h'
    subst hn
    exact ⟨_, rfl⟩
  | str s =>
    obtain ⟨l⟩ := s
    cases l with
    | nil => exact ⟨_, rfl⟩
    | cons c cs => exact ⟨_, rfl⟩
  | arr xs =>
    cases xs with
    | nil => exact ⟨_, rfl⟩
    | cons x xs =>
      cases x with
      | null => exact ⟨_, rfl⟩
      | bool b =>
        cases b with
        | false => exact ⟨_, rfl⟩
        | true => simp [safeMessagesVal, pyTruthy] at h'
      | num n =>
        have hn : n = 0 := by simpa [safeMessagesVal, pyTruthy] using h'
        subst hn
        exact ⟨_, rfl⟩
      | str s =>
        obtain ⟨l⟩ := s
        cases l with
        | nil => exact ⟨_, rfl⟩
        | cons c cs => exact ⟨_, rfl⟩
      | arr ys =>
        cases ys with
        | nil => exact ⟨_, rfl⟩
        | cons y ys => simp [safeMessagesVal, pyTruthy] at h'
      | obj o =>
        cases o with
        | nil => exact ⟨_, rfl⟩
        | cons e o => simp [safeMessagesVal, pyTruthy] at h'
  | obj o =>
    cases o with
    | nil => exact ⟨_, rfl⟩
    | cons e o => simp [safeMessagesVal, pyTruthy] at h'

theorem handleAgentTurn_isOk (kvs : List (String × Json)) (env : ExtEnv)
    (h : safeInputMessages kvs = true) :
    ∃ t, handleAgentTurn kvs env =
      Except.ok (0, sendNotification env t (sentMessage kvs) ("codex-" ++ threadIdOf kvs)) := by
  obtain ⟨t, ht⟩ := titleE_isOk kvs h
  refine ⟨t, ?_⟩
  unfold handleAgentTurn
  rw [ht]
  rfl

theorem handleNotification_code_zero (v : Json) (env : ExtEnv) (r : Nat × Effects)
    (h : handleNotification v env = Except.ok r) : r.1 = 0 := by
  cases v with
  | obj kvs =>
    simp only [handleNotification] at h
    by_cases hv : isAgentTurn (objGet kvs "type") = true
    · rw [if_pos hv] at h
      unfold handleAgentTurn at h
      cases he : titleE kvs with
      | error e =>
        rw [he] at h
        simp only [Except.bind] at h
        exact Except.noConfusion h
      | ok t =>
        rw [he] at h
        simp only [Except.bind] at h
        injection h with h1
        rw [← h1]
    · rw [if_neg hv] at h
      injection h with h1
      rw [← h1]
  | null => simp [handleNotification] at h
  | bool b => simp [handleNotification] at h
  | num n => simp [handleNotification] at h
  | str s => simp [handleNotification] at h
  | arr xs => simp [handleNotification] at h

/-! ## Lemmas about the text shaper -/

theorem dropWhile_length_le (p : Char → Bool) (l : List Char) :
    (l.dropWhile p).length ≤ l.length := by
  induction l with
  | nil => simp [List.dropWhile]
  | cons c cs ih =>
    simp only [List.dropWhile]
    cases h : p c with
    | true => exact Nat.le_succ_of_le ih
    | false => simp

theorem pyRstrip_length_le (l : List Char) : (pyRstrip l).length ≤ l.length := by
  unfold pyRstrip
  rw [List.length_reverse]
  calc (l.reverse.dropWhile isPyWs).length
      ≤ l.reverse.length := dropWhile_length_le _ _
    _ = l.length := List.length_reverse l

theorem pyTake_length_le (l : List Char) (stop : Int) (h : 0 ≤ stop) :
    (pyTake l stop).length ≤ stop.toNat := by
  unfold pyTake
  rw [if_pos h]
  exact List.length_take_le _ _

theorem pySplitWsAux_clean (l : List Char) :
    ∀ cur : List Char, (∀ c ∈ cur, isPyWs c = false) →
      wordsClean (pySplitWsAux l cur) := by
  induction l with
  | nil =>
    intro cur hcur
    unfold pySplitWsAux wordsClean
    by_cases hc : cur.isEmpty
    · rw [if_pos hc]
      intro w hw
      simp at hw
    · rw [if_neg hc]
      intro w hw
      rw [List.mem_singleton] at hw
      subst hw
      refine ⟨?_, ?_⟩
      · intro hrev
        rw [List.reverse_eq_nil_iff] at hrev
        subst hrev
        simp at hc
      · intro c hcmem
        exact hcur c (List.mem_reverse.mp hcmem)
  | cons c cs ih =>
    intro cur hcur
    unfold pySplitWsAux
    cases hw : isPyWs c with
    | true =>
      rw [if_pos rfl]
      by_cases hc : cur.isEmpty
      · rw [if_pos hc]
        exact ih [] (by simp)
      · rw [if_neg hc]
        intro w hwmem
        rw [List.mem_cons] at hwmem
        cases hwmem with
        | inl he =>
          subst he
          refine ⟨?_, ?_⟩
          · intro hrev
            rw [List.reverse_eq_nil_iff] at hrev
            subst hrev
            simp at hc
          · intro d hd
            exact hcur d (List.mem_reverse.mp hd)
        | inr hmem => exact ih [] (by simp) w hmem
    | false =>
      rw [if_neg (by simp [hw])]
      refine ih (c :: cur) ?_
      intro d hd
      rw [List.mem_cons] at hd
      cases hd with
      | inl he => subst he; exact hw
      | inr hmem => exact hcur d hmem

/-! ## Claims about the text shaper -/

/-- The true length bound on `_short_text`, shared by several claims:
the truncated prefix has at most `max_chars - 1` codepoints and the
appended mojibake literal has three, so the result has at most
`max_chars + 2` codepoints. -/
theorem shortText_length_bound (s : String) (m : Nat) (h : 1 ≤ m) :
    (shortText s m).length ≤ m + 2 := by
  unfold shortText
  by_cases hc : (collapseWs s).length > m
  · rw [if_pos hc]
    show (pyRstrip (pyTake (collapseWs s).data ((m : Int) - 1)) ++ sourceEllipsis).length ≤ m + 2
    rw [List.length_append]
    have h1 : (pyTake (collapseWs s).data ((m : Int) - 1)).length ≤ ((m : Int) - 1).toNat :=
      pyTake_length_le _ _ (by omega)
    have h2 := pyRstrip_length_le (pyTake (collapseWs s).data ((m : Int) - 1))
    have h3 : ((m : Int) - 1).toNat = m - 1 := by omega
    have h4 : sourceEllipsis.length = 3 := rfl
    omega
  · rw [if_neg hc]
    omega

/-- C9 (code bug): the claim's bound is the source's own stated intent
(docstring: a tight upper bound; comment: reserve one character for the
ellipsis), but line 62 appends the three-codepoint mojibake literal, so
`_short_text("abcdef", 4)` has 6 codepoints, exceeding
`max_chars = 4`: the result is `"abc"` followed by U+00E2 U+20AC
U+00A6. -/
theorem shortText_exceeds_max_chars :
    (shortText "abcdef" 4).length = 6 ∧
    ¬(shortText "abcdef" 4).length ≤ 4 ∧
    (shortText "abcdef" 4).data = ("abc" : String).data ++ sourceEllipsis := by
  decide

/-- C1 (counterexample): the input `"a   b"` is longer than
`max_chars = 4`, yet the result is `"a b"` — its length is 3, not 4,
and its final character is `'b'`, not an ellipsis marker — because
whitespace is collapsed before the length test. -/
theorem shortText_overlong_input_refuted :
    ("a   b" : String).length > 4 ∧
    (shortText "a   b" 4).length = 3 ∧
    (shortText "a   b" 4).data.getLast? = some 'b' := by
  decide

/-- C1 (amended): for every input whose collapsed form is longer than
`max_chars ≥ 1`, the result ends with the three-codepoint mojibake
literal that the source actually appends (U+00E2 U+20AC U+00A6, a
corruption of the intended single U+2026), and its length is at most
`max_chars + 2` — neither exactly `max_chars` (the appended literal is
three codepoints, and trailing whitespace is stripped first), nor
ending in a true ellipsis character. -/
theorem shortText_collapsed_overlong (s : String) (m : Nat) (h1 : 1 ≤ m)
    (h2 : (collapseWs s).length > m) :
    (shortText s m).length ≤ m + 2 ∧
    ∃ pre, (shortText s m).data = pre ++ sourceEllipsis := by
  refine ⟨shortText_length_bound s m h1, ?_⟩
  unfold shortText
  rw [if_pos h2]
  exact ⟨pyRstrip (pyTake (collapseWs s).data ((m : Int) - 1)), rfl⟩

theorem shortText_collapsed_overlong_witness :
    1 ≤ 4 ∧ (collapseWs "abcdefgh").length > 4 ∧
    ((shortText "abcdefgh" 4).length ≤ 4 + 2 ∧
      ∃ pre, (shortText "abcdefgh" 4).data = pre ++ sourceEllipsis) :=
  ⟨by decide, by decide, shortText_collapsed_overlong "abcdefgh" 4 (by decide) (by decide)⟩

/-- C8: `_short_text` collapses every whitespace run to a single space
before truncating: the collapsed text is the whitespace-free words of
the input joined by single spaces, and in particular
`_short_text("a   b\nc", 10) = "a b c"` with no truncation needed. -/
theorem shortText_collapses_whitespace :
    (∀ s : String, wordsClean (pySplitWs s.data) ∧
      (collapseWs s).data = List.intercalate [' '] (pySplitWs s.data)) ∧
    shortText "a   b\nc" 10 = "a b c" ∧
    (collapseWs "a   b\nc").length ≤ 10 := by
  refine ⟨?_, by decide, by decide⟩
  intro s
  exact ⟨pySplitWsAux_clean s.data [] (by simp), rfl⟩

/-! ## Lemmas and claims about the summarizer -/

theorem pieceOf_nondict (f : Json) (h : isDictJson f = false) : pieceOf f = none := by
  cases f <;> first | rfl | simp [isDictJson] at h

/-- A helper shared by several claims: on a dict with a non-empty
findings list, the summary starts with the sentence counting all the
findings. -/
theorem summarize_count_prefix (kvs : List (String × Json)) (fs : List Json)
    (h : objGet kvs "findings" = some (Json.arr fs)) (hne : fs ≠ []) :
    ∃ t, summarizeStructured (Json.obj kvs) =
      "Review complete with " ++ toString fs.length ++ " finding" ++ t := by
  have hf : fs.isEmpty = false := by
    cases fs with
    | nil => exact absurd rfl hne
    | cons a l => rfl
  refine ⟨(if fs.length != 1 then "s" else "") ++
      (if (findingParts fs).isEmpty then ""
       else ": " ++ String.intercalate "; " (findingParts fs)), ?_⟩
  simp only [summarizeStructured, h, hf]
  by_cases hp : (findingParts fs).isEmpty
  · simp only [hp, if_true, if_false]
    simp [String.append_assoc, String.append_empty]
  · simp only [hp, if_false]
    simp [String.append_assoc]

/-- C4: on a mapping with a list field `findings`: the empty list gives
the fixed no-findings sentence; a non-empty list gives a sentence
counting all findings and listing at most three of them; and the
spec's example evaluates to count 2 with listing `[P1] X; Y`. -/
theorem summarize_findings_spec :
    (∀ kvs : List (String × Json), objGet kvs "findings" = some (Json.arr []) →
      summarizeStructured (Json.obj kvs) = "Review complete with no findings.") ∧
    (∀ fs : List Json, (findingParts fs).length ≤ 3) ∧
    (∀ (kvs : List (String × Json)) (fs : List Json),
      objGet kvs "findings" = some (Json.arr fs) → fs ≠ [] →
      ∃ t, summarizeStructured (Json.obj kvs) =
        "Review complete with " ++ toString fs.length ++ " finding" ++ t) ∧
    summarizeStructured (Json.obj [("findings", Json.arr
      [Json.obj [("title", Json.str "X"), ("priority", Json.num 1)],
       Json.obj [("title", Json.str "Y")]])]) =
      "Review complete with 2 findings: [P1] X; Y" := by
  refine ⟨?_, ?_, summarize_count_prefix, by rfl⟩
  · intro kvs h
    simp only [summarizeStructured, h]
    rfl
  · intro fs
    calc (findingParts fs).length
        ≤ (fs.take 3).length := List.length_filterMap_le _ _
      _ ≤ 3 := List.length_take_le _ _

theorem summarize_findings_spec_witness :
    objGet [("findings", Json.arr [])] "findings" = some (Json.arr []) ∧
    summarizeStructured (Json.obj [("findings", Json.arr [])]) =
      "Review complete with no findings." :=
  ⟨rfl, summarize_findings_spec.1 [("findings", Json.arr [])] rfl⟩

/-- C7: a string input that looks like JSON (after leading-whitespace
stripping it starts with a curly brace or a bracket) but fails to parse
makes the summarizer return the fixed fallback sentence. -/
theorem summarize_unparseable_fallback (s : String)
    (h1 : startsJson s = true) (h2 : jsonLoads s = none) :
    summarizeStructured (Json.str s) = fallbackSentence := by
  simp only [summarizeStructured, h1, h2, if_true]

theorem summarize_unparseable_fallback_witness :
    startsJson "\x7b oops" = true ∧ jsonLoads "\x7b oops" = none ∧
    summarizeStructured (Json.str "\x7b oops") = fallbackSentence :=
  ⟨rfl, rfl, summarize_unparseable_fallback "\x7b oops" rfl rfl⟩

/-- C10: a non-mapping entry among the first three findings is omitted
from the listing but still consumes one of the three listing slots, and
it is still counted: the listing of `f :: rest` with `f` not a dict
draws from only the first two elements of `rest`, the count covers the
whole list, and on the concrete list with a number followed by three
mapping-shaped findings only the first two of those are listed while
the count is 4. -/
theorem nondict_finding_slot :
    (∀ (f : Json) (rest : List Json), isDictJson f = false →
      findingParts (f :: rest) = (rest.take 2).filterMap pieceOf) ∧
    (∀ (kvs : List (String × Json)) (f : Json) (rest : List Json),
      objGet kvs "findings" = some (Json.arr (f :: rest)) →
      ∃ t, summarizeStructured (Json.obj kvs) =
        "Review complete with " ++ toString (rest.length + 1) ++ " finding" ++ t) ∧
    summarizeStructured (Json.obj [("findings", Json.arr
      [Json.num 7, Json.obj [("title", Json.str "A")],
       Json.obj [("title", Json.str "B")], Json.obj [("title", Json.str "C")]])]) =
      "Review complete with 4 findings: A; B" := by
  refine ⟨?_, ?_, by rfl⟩
  · intro f rest h
    simp [findingParts, List.filterMap_cons, pieceOf_nondict f h]
  · intro kvs f rest h
    have := summarize_count_prefix kvs (f :: rest) h (by simp)
    simpa using this

theorem nondict_finding_slot_witness :
    isDictJson (Json.num 5) = false ∧
    findingParts [Json.num 5] = (List.take 2 []).filterMap pieceOf :=
  ⟨rfl, nondict_finding_slot.1 (Json.num 5) [] rfl⟩

/-! ## Claims about `main` -/

/-- C2 (counterexample): `"[]"` is a single well-formed argument whose
JSON value is not a mapping; on it the script raises an uncaught
AttributeError at `notification.get`, so an exception does propagate to
the caller. -/
theorem main_nonmapping_raises :
    jsonLoads "[]" = some (Json.arr []) ∧
    mainFn ["notify.py", "[]"] env0 = Except.error PyErr.attributeError :=
  ⟨rfl, rfl⟩

/-- C2 (amended): main terminates normally with an exit code — for any
notifier environment — whenever the argument count is wrong, or the
argument is not JSON, or it parses to a mapping whose `type` is not
`"agent-turn-complete"` (then `input-messages` is never read), or to a
mapping whose `input-messages` value is falsy, a string, or a list
whose first element is a string or falsy. On JSON whose top-level
value is not a mapping, an uncaught AttributeError propagates
instead. -/
theorem main_no_uncaught_exception :
    (∀ (argv : List String) (env : ExtEnv), argv.length ≠ 2 →
      ∃ r, mainFn argv env = Except.ok r) ∧
    (∀ (p a : String) (env : ExtEnv), jsonLoads a = none →
      ∃ r, mainFn [p, a] env = Except.ok r) ∧
    (∀ (p a : String) (env : ExtEnv) (kvs : List (String × Json)),
      jsonLoads a = some (Json.obj kvs) → isAgentTurn (objGet kvs "type") = false →
      ∃ r, mainFn [p, a] env = Except.ok r) ∧
    (∀ (p a : String) (env : ExtEnv) (kvs : List (String × Json)),
      jsonLoads a = some (Json.obj kvs) → safeInputMessages kvs = true →
      ∃ r, mainFn [p, a] env = Except.ok r) ∧
    (∀ (p a : String) (env : ExtEnv) (v : Json),
      jsonLoads a = some v → isDictJson v = false →
      mainFn [p, a] env = Except.error PyErr.attributeError) := by
  refine ⟨?_, ?_, ?_, ?_, ?_⟩
  · intro argv env h
    cases argv with
    | nil => exact ⟨_, rfl⟩
    | cons x t =>
      cases t with
      | nil => exact ⟨_, rfl⟩
      | cons y t2 =>
        cases t2 with
        | nil => simp at h
        | cons z t3 => exact ⟨_, rfl⟩
  · intro p a env h
    simp only [mainFn, h]
    exact ⟨_, rfl⟩
  · intro p a env kvs h ht
    simp only [mainFn, h, handleNotification]
    rw [if_neg (by simp [ht])]
    exact ⟨_, rfl⟩
  · intro p a env kvs h hs
    simp only [mainFn, h, handleNotification]
    by_cases hv : isAgentTurn (objGet kvs "type") = true
    · rw [if_pos hv]
      obtain ⟨t, ht⟩ := handleAgentTurn_isOk kvs env hs
      exact ⟨_, ht⟩
    · rw [if_neg hv]
      exact ⟨_, rfl⟩
  · intro p a env v h hd
    simp only [mainFn, h]
    cases v with
    | obj kvs => simp [isDictJson] at hd
    | null => rfl
    | bool b => rfl
    | num n => rfl
    | str s => rfl
    | arr xs => rfl

theorem main_no_uncaught_exception_witness :
    jsonLoads "\x7b\"input-messages\": [\"hi\"], \"type\": \"agent-turn-complete\"\x7d" =
      some (Json.obj [("input-messages", Json.arr [Json.str "hi"]),
        ("type", Json.str "agent-turn-complete")]) ∧
    safeInputMessages [("input-messages", Json.arr [Json.str "hi"]),
      ("type", Json.str "agent-turn-complete")] = true ∧
    ∃ r, mainFn ["notify.py",
      "\x7b\"input-messages\": [\"hi\"], \"type\": \"agent-turn-complete\"\x7d"] env0 =
      Except.ok r :=
  ⟨rfl, rfl, main_no_uncaught_exception.2.2.2.1 "notify.py" _ env0 _ rfl rfl⟩

/-- C3 (counterexample): `"[1]"` parses as JSON, so by the claim the
process should exit 0; instead the script raises an uncaught
AttributeError (which makes the interpreter exit 1 with a traceback,
not a clean exit 0). -/
theorem main_exit_codes_refuted :
    jsonLoads "[1]" = some (Json.arr [Json.num 1]) ∧
    mainFn ["notify.py", "[1]"] env0 = Except.error PyErr.attributeError :=
  ⟨rfl, rfl⟩

/-- C3 (amended): among runs that terminate without an uncaught
exception, the exit code is 1 exactly when the argument is missing,
extra, or not parseable as JSON; malformed JSON produces no output; and
a mapping with a safe `input-messages` value exits 0 for every notifier
environment, including failing delivery. (JSON that parses to a
non-mapping raises an uncaught exception instead.) -/
theorem main_exit_codes :
    (∀ (argv : List String) (env : ExtEnv), argv.length ≠ 2 →
      mainFn argv env =
        Except.ok (1, ⟨["Usage: notify.py <NOTIFICATION_JSON>"], [], [], []⟩)) ∧
    (∀ (p a : String) (env : ExtEnv), jsonLoads a = none →
      mainFn [p, a] env = Except.ok (1, ⟨[], [], [], []⟩)) ∧
    (∀ (argv : List String) (env : ExtEnv) (r : Nat × Effects),
      mainFn argv env = Except.ok r →
      (r.1 = 1 ↔ (argv.length ≠ 2 ∨ ∃ p a, argv = [p, a] ∧ jsonLoads a = none))) ∧
    (∀ (p a : String) (env : ExtEnv) (kvs : List (String × Json)),
      jsonLoads a = some (Json.obj kvs) → safeInputMessages kvs = true →
      ∃ eff, mainFn [p, a] env = Except.ok (0, eff)) := by
  refine ⟨?_, ?_, ?_, ?_⟩
  · intro argv env h
    cases argv with
    | nil => rfl
    | cons x t =>
      cases t with
      | nil => rfl
      | cons y t2 =>
        cases t2 with
        | nil => simp at h
        | cons z t3 => rfl
  · intro p a env h
    simp only [mainFn, h]
  · intro argv env r h
    cases argv with
    | nil =>
      injection h with h1
      rw [← h1]
      simp
    | cons x t =>
      cases t with
      | nil =>
        injection h with h1
        rw [← h1]
        simp
      | cons y t2 =>
        cases t2 with
        | nil =>
          cases hl : jsonLoads y with
          | none =>
            simp only [mainFn, hl] at h
            injection h with h1
            rw [← h1]
            constructor
            · intro _
              exact Or.inr ⟨x, y, rfl, hl⟩
            · intro _
              rfl
          | some v =>
            simp only [mainFn, hl] at h
            have hz : r.1 = 0 := handleNotification_code_zero v env r h
            constructor
            · intro h1
              rw [hz] at h1
              exact absurd h1 (by decide)
            · intro hor
              cases hor with
              | inl hlen => simp at hlen
              | inr hex =>
                obtain ⟨p, a, heq, hn⟩ := hex
                have hy : y = a := by
                  injection heq with he1 he2
                  injection he2 with he3 he4
                rw [hy, hn] at hl
                exact Option.noConfusion hl
        | cons z t3 =>
          injection h with h1
          rw [← h1]
          simp
  · intro p a env kvs h hs
    simp only [mainFn, h, handleNotification]
    by_cases hv : isAgentTurn (objGet kvs "type") = true
    · rw [if_pos hv]
      obtain ⟨t, ht⟩ := handleAgentTurn_isOk kvs env hs
      exact ⟨_, ht⟩
    · rw [if_neg hv]
      exact ⟨_, rfl⟩

theorem main_exit_codes_witness :
    ([] : List String).length ≠ 2 ∧
    mainFn [] env0 =
      Except.ok (1, ⟨["Usage: notify.py <NOTIFICATION_JSON>"], [], [], []⟩) :=
  ⟨by decide, main_exit_codes.1 [] env0 (by decide)⟩

/-- C5: a parsed notification mapping whose `type` field is anything
other than the string `"agent-turn-complete"` (absent included) leads
to exit code 0 with no notifier invocation and no fallback invocation,
in every environment. -/
theorem non_agent_turn_no_notification (p a : String) (env : ExtEnv)
    (kvs : List (String × Json))
    (h : jsonLoads a = some (Json.obj kvs))
    (ht : isAgentTurn (objGet kvs "type") = false) :
    ∃ logs, mainFn [p, a] env = Except.ok (0, ⟨[], logs, [], []⟩) := by
  simp only [mainFn, h, handleNotification]
  rw [if_neg (by simp [ht])]
  exact ⟨_, rfl⟩

theorem non_agent_turn_no_notification_witness :
    jsonLoads "\x7b\"type\": \"other\"\x7d" = some (Json.obj [("type", Json.str "other")]) ∧
    isAgentTurn (objGet [("type", Json.str "other")] "type") = false ∧
    ∃ logs, mainFn ["notify.py", "\x7b\"type\": \"other\"\x7d"] env0 =
      Except.ok (0, ⟨[], logs, [], []⟩) :=
  ⟨rfl, rfl, non_agent_turn_no_notification "notify.py" _ env0 _ rfl rfl⟩

/-- C6: for every agent-turn-complete event (with a safe
`input-messages` value), the message handed to the sender is the
truncated message post-processed by the dash guard and the brace
replacement; the post-processing prefixes exactly one space to a
message starting with a dash, and its output never contains a curly
brace. -/
theorem message_postprocessing :
    (∀ (kvs : List (String × Json)) (env : ExtEnv),
      isAgentTurn (objGet kvs "type") = true → safeInputMessages kvs = true →
      ∃ t, handleNotification (Json.obj kvs) env =
        Except.ok (0, sendNotification env t (postProcess (rawMessage kvs))
          ("codex-" ++ threadIdOf kvs))) ∧
    (∀ m : String, m.data.head? = some '-' →
      (postProcess m).data = ' ' :: (replaceBraces m).data) ∧
    (∀ m : String, lbraceChar ∉ (postProcess m).data ∧ rbraceChar ∉ (postProcess m).data) := by
  refine ⟨?_, ?_, ?_⟩
  · intro kvs env h1 h2
    simp only [handleNotification]
    rw [if_pos h1]
    obtain ⟨t, ht⟩ := handleAgentTurn_isOk kvs env h2
    exact ⟨t, ht⟩
  · intro m hm
    obtain ⟨l⟩ := m
    cases l with
    | nil => exact Option.noConfusion hm
    | cons c cs =>
      have hc : c = '-' := by simpa using hm
      subst hc
      rfl
  · intro m
    have hne : ∀ c : Char, braceSwap c ≠ lbraceChar ∧ braceSwap c ≠ rbraceChar := by
      intro c
      by_cases hc1 : c = lbraceChar
      · subst hc1
        exact ⟨by decide, by decide⟩
      · by_cases hc2 : c = rbraceChar
        · subst hc2
          exact ⟨by decide, by decide⟩
        · have e1 : (c == lbraceChar) = false := by simp [hc1]
          have e2 : (c == rbraceChar) = false := by simp [hc2]
          unfold braceSwap
          rw [e1, e2]
          simp
          exact ⟨hc1, hc2⟩
    constructor
    · intro hmem
      have : lbraceChar ∈ (dashGuard m).data.map braceSwap := hmem
      rw [List.mem_map] at this
      obtain ⟨c, _, heq⟩ := this
      exact (hne c).1 heq
    · intro hmem
      have : rbraceChar ∈ (dashGuard m).data.map braceSwap := hmem
      rw [List.mem_map] at this
      obtain ⟨c, _, heq⟩ := this
      exact (hne c).2 heq

theorem message_postprocessing_witness :
    isAgentTurn (objGet [("type", Json.str "agent-turn-complete"),
      ("last-assistant-message", Json.str "-hi")] "type") = true ∧
    safeInputMessages [("type", Json.str "agent-turn-complete"),
      ("last-assistant-message", Json.str "-hi")] = true ∧
    ∃ t, handleNotification (Json.obj [("type", Json.str "agent-turn-complete"),
      ("last-assistant-message", Json.str "-hi")]) env0 =
      Except.ok (0, sendNotification env0 t
        (postProcess (rawMessage [("type", Json.str "agent-turn-complete"),
          ("last-assistant-message", Json.str "-hi")]))
        ("codex-" ++ threadIdOf [("type", Json.str "agent-turn-complete"),
          ("last-assistant-message", Json.str "-hi")])) :=
  ⟨rfl, rfl, message_postprocessing.1 _ env0 rfl rfl⟩

end CodexNotify
